import Mathlib

/-
Verification development for the query-to-filter translation and caching
facade described by the repository specification and exercised by the two
documentation notebooks (the self-query retriever walkthrough and the chat
model caching walkthrough).
-/

/-! ## Data model of the structured-query translator

The filter tree mirrors the objects printed by the self-query notebook:
`Comparison(comparator=<Comparator.GT: 'gt'>, attribute='rating', value=8.4)`
and `Operation(operator=<Operator.AND: 'and'>, arguments=[...])`.
-/

/-- Comparators, the closed enumeration from the notebook traces and spec
section 3: equal, not-equal, greater-than, greater-or-equal, less-than,
less-or-equal, contains. -/
inductive Comparator where
  | eq | ne | gt | gte | lt | lte | contain
deriving DecidableEq

/-- Operators of an Operation node: and, or, not (spec section 3). -/
inductive Operator where
  | and | or | not
deriving DecidableEq

/-- Exact decimal numbers, the numeric literals appearing in the notebooks
(8.4, 8.5, 1990, ...): `mantissa / 10 ^ shift`. -/
structure Decimal where
  mantissa : Int
  shift : Nat
deriving DecidableEq

/-- Numeric less-or-equal on decimals by cross multiplication. -/
def Decimal.leNum (a b : Decimal) : Bool :=
  a.mantissa * (10 : Int) ^ b.shift ≤ b.mantissa * (10 : Int) ^ a.shift

/-- Numeric strict order on decimals by cross multiplication. -/
def Decimal.ltNum (a b : Decimal) : Bool :=
  a.mantissa * (10 : Int) ^ b.shift < b.mantissa * (10 : Int) ^ a.shift

/-- Numeric equality on decimals (identifies 8.50 with 8.5). -/
def Decimal.eqNum (a b : Decimal) : Bool :=
  a.mantissa * (10 : Int) ^ b.shift == b.mantissa * (10 : Int) ^ a.shift

/-- A comparison value: string, number or boolean (spec section 3). -/
inductive AttrValue where
  | str (s : String)
  | num (d : Decimal)
  | boolean (b : Bool)
deriving DecidableEq

mutual
/-- A filter tree node: a Comparison leaf (comparator, attribute, value) or
an Operation over an ordered sequence of children, as printed by the
self-query notebook. -/
inductive FilterNode where
  | comparison (comparator : Comparator) (attr : String) (value : AttrValue)
  | operation (operator : Operator) (arguments : FilterNodeList)
/-- Ordered sequence of child filter nodes of an Operation. -/
inductive FilterNodeList where
  | nil
  | cons (head : FilterNode) (tail : FilterNodeList)
end

/-- Number of children in an argument list. -/
def lengthL : FilterNodeList → Nat
  | .nil => 0
  | .cons _ t => 1 + lengthL t

mutual
/-- Spec section 3 invariant: `not` has exactly one child; `and`/`or` have
at least one. -/
def wfN : FilterNode → Bool
  | .comparison _ _ _ => true
  | .operation .not args => decide (lengthL args = 1) && wfL args
  | .operation _ args => decide (1 ≤ lengthL args) && wfL args
/-- Well-formedness of every node in an argument list. -/
def wfL : FilterNodeList → Bool
  | .nil => true
  | .cons h t => wfN h && wfL t
end

/-- Declared attribute type. The notebook schema declares
`year : integer`, `director : string`, `rating : float` and a genre that the
spec scenario narrows to `list[string]`. -/
inductive AttrType where
  | string | integer | float | listString
deriving DecidableEq

/-- One schema record, mirroring `AttributeInfo(name, description, type)`
from the self-query notebook. -/
structure AttributeInfo where
  name : String
  description : String
  type : AttrType
deriving DecidableEq

/-- A structured query: free-text query, optional filter tree, optional
result limit, as printed by the notebook
(`query='dinosaur' filter=None limit=2`). -/
structure StructuredQuery where
  query : String
  filter : Option FilterNode
  limit : Option Nat

/-- Does the schema declare attribute `a`? -/
def attributeDeclared (schema : List AttributeInfo) (a : String) : Bool :=
  schema.any (fun i => i.name == a)

/-- Declared type of attribute `a`, if any. -/
def schemaType (schema : List AttributeInfo) (a : String) : Option AttrType :=
  (schema.find? (fun i => i.name == a)).map (fun i => i.type)

mutual
/-- Every attribute referenced in the tree is declared in the schema
(spec section 4.1, first validation phase). -/
def attributesKnownN : FilterNode → List AttributeInfo → Bool
  | .comparison _ a _, schema => attributeDeclared schema a
  | .operation _ args, schema => attributesKnownL args schema
/-- Attribute check over an argument list. -/
def attributesKnownL : FilterNodeList → List AttributeInfo → Bool
  | .nil, _ => true
  | .cons h t, schema => attributesKnownN h schema && attributesKnownL t schema
end

/-- Is the comparator an ordering comparator? -/
def Comparator.isOrdering : Comparator → Bool
  | .gt => true
  | .gte => true
  | .lt => true
  | .lte => true
  | _ => false

/-- Is the declared type numeric? -/
def AttrType.isNumeric : AttrType → Bool
  | .integer => true
  | .float => true
  | _ => false

/-- Spec section 3: the comparator must be valid for the declared attribute
type; `contains` only for list-typed attributes, ordering comparators only
for numeric types, equality for every type. -/
def comparatorCompatible (c : Comparator) (t : AttrType) : Bool :=
  match c with
  | .contain => decide (t = .listString)
  | .eq => true
  | .ne => true
  | _ => t.isNumeric

mutual
/-- Every comparison in the tree uses a comparator compatible with the
declared type of its attribute (spec section 4.1, second validation
phase). -/
def comparatorsCompatibleN : FilterNode → List AttributeInfo → Bool
  | .comparison c a _, schema =>
    match schemaType schema a with
    | some t => comparatorCompatible c t
    | none => false
  | .operation _ args, schema => comparatorsCompatibleL args schema
/-- Compatibility check over an argument list. -/
def comparatorsCompatibleL : FilterNodeList → List AttributeInfo → Bool
  | .nil, _ => true
  | .cons h t, schema => comparatorsCompatibleN h schema && comparatorsCompatibleL t schema
end

mutual
/-- Modelled from the spec: the backend-native filter expression produced by
the translator (the rendered Redis-style filter is not shown in the source,
only the logical trees are), as a tagged syntax tree: tag clauses for
`contains` over strings, numeric range clauses, text clauses, combined by
and/or/not combinators. -/
inductive FilterExpr where
  | tagClause (field : String) (value : String)
  | textClause (field : String) (comparator : Comparator) (value : String)
  | numClause (field : String) (comparator : Comparator) (value : Decimal)
  | boolClause (field : String) (comparator : Comparator) (value : Bool)
  | andExpr (children : FilterExprList)
  | orExpr (children : FilterExprList)
  | notExpr (child : FilterExpr)
/-- Ordered sequence of rendered child clauses. -/
inductive FilterExprList where
  | nil
  | cons (head : FilterExpr) (tail : FilterExprList)
end

/-- Rendering of one Comparison leaf into a backend clause: `contains` over
a string value becomes a tag clause, numeric values become numeric clauses,
remaining string values text clauses, booleans boolean clauses. -/
def renderComparison (c : Comparator) (a : String) (v : AttrValue) : FilterExpr :=
  match c, v with
  | .contain, .str s => .tagClause a s
  | _, .num d => .numClause a c d
  | _, .str s => .textClause a c s
  | _, .boolean b => .boolClause a c b

mutual
/-- Modelled from the spec: post-order lowering of the tree into the
backend filter syntax — leaves render first, then parent Operations combine
the rendered children (spec section 4.1). -/
def render : FilterNode → FilterExpr
  | .comparison c a v => renderComparison c a v
  | .operation .and args => .andExpr (renderL args)
  | .operation .or args => .orExpr (renderL args)
  | .operation .not (.cons x .nil) => .notExpr (render x)
  | .operation .not args => .andExpr (renderL args)
/-- Rendering of an argument list, in order. -/
def renderL : FilterNodeList → FilterExprList
  | .nil => .nil
  | .cons h t => .cons (render h) (renderL t)
end

mutual
/-- Modelled from the spec: the inverse check of section 8 — re-parse a
rendered filter expression back into a logical Comparison/Operation tree. -/
def parseBack : FilterExpr → FilterNode
  | .tagClause f v => .comparison .contain f (.str v)
  | .textClause f c v => .comparison c f (.str v)
  | .numClause f c d => .comparison c f (.num d)
  | .boolClause f c b => .comparison c f (.boolean b)
  | .andExpr ch => .operation .and (parseBackL ch)
  | .orExpr ch => .operation .or (parseBackL ch)
  | .notExpr x => .operation .not (.cons (parseBack x) .nil)
/-- Re-parse of a rendered child list, in order. -/
def parseBackL : FilterExprList → FilterNodeList
  | .nil => .nil
  | .cons h t => .cons (parseBack h) (parseBackL t)
end

/-- The translation error taxonomy of spec section 7 that applies to the
translator. -/
inductive TranslateError where
  | UnknownAttribute
  | UnsupportedComparator
deriving DecidableEq

/-- The translator output triple of spec section 4.1:
`(filterExpression, residualQueryText, limit)`. -/
structure TranslateResult where
  filterExpression : Option FilterExpr
  residualQuery : String
  limit : Option Nat

/-- Modelled from the spec: the translator contract of section 4.1 — the
translator itself is not part of the source, only its inputs and outputs
appear in the notebook. Validates that every referenced attribute exists in
the schema (else `UnknownAttribute`), then comparator/type compatibility
(else `UnsupportedComparator`), then lowers the tree; the free-text query
and the limit pass through unmodified. Pure and total: no retry, no side
effect. -/
def SelfQuery.translate (q : StructuredQuery) (schema : List AttributeInfo) :
    Except TranslateError TranslateResult :=
  match q.filter with
  | none => .ok ⟨none, q.query, q.limit⟩
  | some f =>
    if attributesKnownN f schema then
      if comparatorsCompatibleN f schema then
        .ok ⟨some (render f), q.query, q.limit⟩
      else .error .UnsupportedComparator
    else .error .UnknownAttribute


/-! ## Backend evaluation of rendered filters

The retriever notebook shows the backend storing and returning numeric
metadata as strings (`'year': '1993'`, `'rating': '7.7'`) while filters such
as `Comparison(GT, rating, 8.4)` still select by numeric value. -/

/-- Stored metadata of one document: field name to stored string, exactly
as the notebook prints retrieved metadata. -/
def docLookup (doc : List (String × String)) (field : String) : Option String :=
  (doc.find? (fun p => p.1 == field)).map (fun p => p.2)

/-- Value of one decimal digit character. -/
def charDigit (c : Char) : Option Nat :=
  if c.isDigit then some (c.toNat - 48) else none

/-- Accumulate the value of a digit string; fails on a non-digit. -/
def digitsValAux : List Char → Nat → Option Nat
  | [], acc => some acc
  | c :: cs, acc =>
    match charDigit c with
    | some d => digitsValAux cs (acc * 10 + d)
    | none => none

/-- Value of a non-empty digit string. -/
def digitsVal : List Char → Option Nat
  | [] => none
  | l => digitsValAux l 0

/-- Split a character list at the first dot, if any. -/
def splitDot : List Char → List Char × Option (List Char)
  | [] => ([], none)
  | c :: cs =>
    if c = '.' then ([], some cs)
    else
      let r := splitDot cs
      (c :: r.1, r.2)

/-- Parse a stored string such as "1993" or "8.6" into an exact decimal. -/
def parseDecimal (s : String) : Option Decimal :=
  match splitDot s.data with
  | (w, none) => (digitsVal w).map (fun n => ⟨(n : Int), 0⟩)
  | (w, some fpart) =>
    match digitsVal w, digitsVal fpart with
    | some a, some b =>
      some ⟨(a : Int) * (10 : Int) ^ fpart.length + (b : Int), fpart.length⟩
    | _, _ => none

/-- Numeric interpretation of a comparator over decimals. -/
def decimalCompare (c : Comparator) (a b : Decimal) : Bool :=
  match c with
  | .eq => a.eqNum b
  | .ne => ! a.eqNum b
  | .gt => b.ltNum a
  | .gte => b.leNum a
  | .lt => a.ltNum b
  | .lte => a.leNum b
  | .contain => false

/-- Lexicographic (string) strict order on character lists, the ordering a
backend would apply if it compared stored number strings as text. -/
def charListLt : List Char → List Char → Bool
  | [], _ :: _ => true
  | _, [] => false
  | a :: as, b :: bs => a < b || (a == b && charListLt as bs)

mutual
/-- Modelled from the spec: evaluation of a rendered filter expression over
a document's stored metadata — numeric clauses parse the stored string and
compare under numeric ordering (spec section 4.1: numeric comparisons
preserve numeric semantics, no string comparison of numbers); the backend
that executes the filter is not part of the source. -/
def evalExpr : FilterExpr → List (String × String) → Bool
  | .tagClause f v, doc =>
    match docLookup doc f with
    | some s => s == v
    | none => false
  | .textClause f c v, doc =>
    match docLookup doc f with
    | some s =>
      match c with
      | .eq => s == v
      | .ne => ! (s == v)
      | _ => false
    | none => false
  | .numClause f c v, doc =>
    match docLookup doc f with
    | some s =>
      match parseDecimal s with
      | some d => decimalCompare c d v
      | none => false
    | none => false
  | .boolClause f c v, doc =>
    match docLookup doc f with
    | some s =>
      match c with
      | .eq => s == (if v then "true" else "false")
      | .ne => ! (s == (if v then "true" else "false"))
      | _ => false
    | none => false
  | .andExpr ch, doc => evalAll ch doc
  | .orExpr ch, doc => evalAny ch doc
  | .notExpr x, doc => ! evalExpr x doc
/-- Conjunction of the child clauses. -/
def evalAll : FilterExprList → List (String × String) → Bool
  | .nil, _ => true
  | .cons h t, doc => evalExpr h doc && evalAll t doc
/-- Disjunction of the child clauses. -/
def evalAny : FilterExprList → List (String × String) → Bool
  | .nil, _ => false
  | .cons h t, doc => evalExpr h doc || evalAny t doc
end

/-! ## Response cache data model

Mirrors the caching notebook: an `AIMessage` with content, optional
response metadata and a run id; an in-memory (volatile) backend and a
SQLite (durable) backend behind the `lookup`/`store` contract of spec
section 4.2. -/

/-- Token usage block of a response, as printed by the caching notebook. -/
structure TokenUsage where
  completion_tokens : Nat
  prompt_tokens : Nat
  total_tokens : Nat
deriving DecidableEq

/-- Response metadata block of a generated response, as printed by the
caching notebook: token usage, model name, system fingerprint, finish
reason. -/
structure ResponseMetadata where
  token_usage : TokenUsage
  model_name : String
  system_fingerprint : String
  finish_reason : String
deriving DecidableEq

/-- A generated chat response: content, optional response metadata, run
identifier — the three components printed by the caching notebook. -/
structure AIMessage where
  content : String
  response_metadata : Option ResponseMetadata
  id : String
deriving DecidableEq

/-- A cache request payload: prompt text, model identifier and the
generation parameters that affect output (spec section 3). -/
structure RequestPayload where
  prompt : String
  model : String
  params : List (String × String)

/-- Modelled from the spec: the CacheKey fingerprint — the hashing code is
not part of the source. Spec section 3 requires a deterministic fingerprint
of the full payload, identical for identical payload content irrespective
of field ordering and different whenever any parameter differs; it is
modelled as the canonical payload content itself, with the parameters taken
as a multiset. -/
structure CacheKey where
  prompt : String
  model : String
  params : Multiset (String × String)
deriving DecidableEq

/-- Modelled from the spec: fingerprint computation from a payload. -/
def fingerprint (p : RequestPayload) : CacheKey :=
  ⟨p.prompt, p.model, (p.params : Multiset (String × String))⟩

/-- A cache entry: the list of generated responses for one fingerprint and
a creation timestamp (spec section 3). -/
structure CacheEntry where
  responses : List AIMessage
  created : Nat
deriving DecidableEq

/-- The failure taxonomy of the durable cache backend (spec section 7). -/
inductive CacheError where
  | StorageUnavailable
deriving DecidableEq

/-- The volatile (in-memory) backend state: an unbounded in-process map. -/
abbrev VolatileCache := List (CacheKey × CacheEntry)

/-- Volatile `store`: last-writer-wins insert for the key. -/
def volatileStore (c : VolatileCache) (k : CacheKey) (e : CacheEntry) : VolatileCache :=
  (k, e) :: c.filter (fun p => ! decide (p.1 = k))

/-- Volatile `lookup`. -/
def volatileLookup (c : VolatileCache) (k : CacheKey) : Option CacheEntry :=
  (c.find? (fun p => decide (p.1 = k))).map (fun p => p.2)

/-- Drop the response metadata of a message, keeping content and run id.
Translated from the recorded notebook outputs: the SQLite-cached second
invocation returns the message with content and id but without
`response_metadata`. -/
def stripMeta (m : AIMessage) : AIMessage :=
  { content := m.content, response_metadata := none, id := m.id }

/-- Serialization of an entry into the durable store: each response loses
its response metadata (recorded notebook behavior), content, id and the
creation timestamp survive. -/
def stripEntry (e : CacheEntry) : CacheEntry :=
  { responses := e.responses.map stripMeta, created := e.created }

/-- The durable (SQLite) backend state: persisted rows plus an availability
flag for whether the underlying file/connection can be opened. -/
structure DurableCache where
  available : Bool
  data : List (CacheKey × CacheEntry)
deriving DecidableEq

/-- Durable `store`: fails with `StorageUnavailable` when the store cannot
be opened, else writes the serialized entry for the key
(last-writer-wins). -/
def durableStore (c : DurableCache) (k : CacheKey) (e : CacheEntry) :
    Except CacheError DurableCache :=
  if c.available then
    .ok { c with data := (k, stripEntry e) :: c.data.filter (fun p => ! decide (p.1 = k)) }
  else .error .StorageUnavailable

/-- Durable `lookup`: fails with `StorageUnavailable` when the store cannot
be opened. -/
def durableLookup (c : DurableCache) (k : CacheKey) :
    Except CacheError (Option CacheEntry) :=
  if c.available then
    .ok ((c.data.find? (fun p => decide (p.1 = k))).map (fun p => p.2))
  else .error .StorageUnavailable

/-- Observability events reported by the caching pipeline
(spec section 7: the cache failure is reported, never aborts the
request). -/
inductive CacheEvent where
  | storageUnavailable
deriving DecidableEq

/-- Modelled from the spec: the calling pipeline of spec sections 2 and 7 —
check the cache first; on a hit return the cached entry; on a miss use the
freshly generated entry and fill the cache; a `StorageUnavailable` result
is treated exactly as a miss and reported as an event; the pipeline always
returns an entry, it never aborts. The orchestration layer itself is not
part of the source. -/
def cachedInvoke (c : DurableCache) (k : CacheKey) (generated : CacheEntry) :
    CacheEntry × DurableCache × List CacheEvent :=
  match durableLookup c k with
  | .ok (some e) => (e, c, [])
  | .ok none =>
    match durableStore c k generated with
    | .ok c2 => (generated, c2, [])
    | .error .StorageUnavailable => (generated, c, [.storageUnavailable])
  | .error .StorageUnavailable =>
    match durableStore c k generated with
    | .ok c2 => (generated, c2, [.storageUnavailable])
    | .error .StorageUnavailable => (generated, c, [.storageUnavailable])

/-! ## Referenced attributes of a filter tree -/

mutual
/-- The attributes referenced by the comparisons of a filter tree. -/
def refAttrsN : FilterNode → List String
  | .comparison _ a _ => [a]
  | .operation _ args => refAttrsL args
/-- Referenced attributes of an argument list. -/
def refAttrsL : FilterNodeList → List String
  | .nil => []
  | .cons h t => refAttrsN h ++ refAttrsL t
end


/-! ## Concrete data of the two notebooks -/

/-- The `metadata_field_info` schema of the retriever notebook; the `genre`
attribute is declared there as `string or list[string]` and the spec
scenario narrows it to `list[string]`. -/
def metadataFieldInfo : List AttributeInfo :=
  [ ⟨"genre", "The genre of the movie", .listString⟩,
    ⟨"year", "The year the movie was released", .integer⟩,
    ⟨"director", "The name of the movie director", .string⟩,
    ⟨"rating", "A 1-10 rating for the movie", .float⟩ ]

/-- The schema of the spec scenario: `rating : float`,
`genre : list[string]`. -/
def scenarioSchema : List AttributeInfo :=
  [ ⟨"rating", "A 1-10 rating for the movie", .float⟩,
    ⟨"genre", "The genre of the movie", .listString⟩ ]

/-- The composite filter printed by the retriever notebook:
`Operation(AND, [Comparison(GTE, rating, 8.5),
Comparison(CONTAIN, genre, science fiction)])`. -/
def scenarioFilter : FilterNode :=
  .operation .and (.cons (.comparison .gte "rating" (.num ⟨85, 1⟩))
    (.cons (.comparison .contain "genre" (.str "science fiction")) .nil))

/-- The structured query carrying the composite filter, with the residual
free-text query `' '` and no limit, as printed by the notebook. -/
def scenarioQuery : StructuredQuery := ⟨" ", some scenarioFilter, none⟩

/-- Retrieved metadata of the dinosaur movie, with year and rating stored
as strings, as printed by the retriever notebook. -/
def docJurassic : List (String × String) :=
  [("director", "Steven Spielberg"), ("genre", "science fiction"),
   ("year", "1993"), ("rating", "7.7")]

/-- Stored metadata of the Nolan dream movie. -/
def docInception : List (String × String) :=
  [("director", "Christopher Nolan"), ("genre", "science fiction"),
   ("year", "2010"), ("rating", "8.2")]

/-- Stored metadata of the Satoshi Kon dream movie. -/
def docPaprika : List (String × String) :=
  [("director", "Satoshi Kon"), ("genre", "science fiction"),
   ("year", "2006"), ("rating", "8.6")]

/-- Stored metadata of the Greta Gerwig movie. -/
def docLittleWomen : List (String × String) :=
  [("director", "Greta Gerwig"), ("genre", "drama"),
   ("year", "2019"), ("rating", "8.3")]

/-- Stored metadata of the toys movie. -/
def docToyStory : List (String × String) :=
  [("director", "John Lasseter"), ("genre", "animated"),
   ("year", "1995"), ("rating", "9.1")]

/-- Stored metadata of the Tarkovsky movie. -/
def docStalker : List (String × String) :=
  [("director", "Andrei Tarkovsky"), ("genre", "science fiction"),
   ("year", "1979"), ("rating", "9.9")]

/-- The six seeded movie documents of the retriever notebook, in seeding
order, with numeric metadata stored as strings as the backend returns
them. -/
def movieDocs : List (List (String × String)) :=
  [docJurassic, docInception, docPaprika, docLittleWomen, docToyStory, docStalker]

/-- The cache key of the caching notebook request
`llm.invoke("Tell me a joke")` against the notebook model. -/
def jokeKey : CacheKey := fingerprint ⟨"Tell me a joke", "gpt-3.5-turbo", []⟩

/-- First in-memory-cached invocation result of the caching notebook, with
full response metadata. -/
def inMemoryFirstInvoke : AIMessage :=
  { content := "Why don\x27t scientists trust atoms?\n\nBecause they make up everything!",
    response_metadata := some
      { token_usage := ⟨13, 11, 24⟩,
        model_name := "gpt-3.5-turbo",
        system_fingerprint := "fp_c2295e73ad",
        finish_reason := "stop" },
    id := "run-b6836bdd-8c30-436b-828f-0ac5fc9ab50e-0" }

/-- Second in-memory-cached invocation result: identical to the first,
every field intact. -/
def inMemorySecondInvoke : AIMessage :=
  { content := "Why don\x27t scientists trust atoms?\n\nBecause they make up everything!",
    response_metadata := some
      { token_usage := ⟨13, 11, 24⟩,
        model_name := "gpt-3.5-turbo",
        system_fingerprint := "fp_c2295e73ad",
        finish_reason := "stop" },
    id := "run-b6836bdd-8c30-436b-828f-0ac5fc9ab50e-0" }

/-- First SQLite-cached invocation result of the caching notebook, with
full response metadata. -/
def sqliteFirstInvoke : AIMessage :=
  { content := "Why did the scarecrow win an award? Because he was outstanding in his field!",
    response_metadata := some
      { token_usage := ⟨17, 11, 28⟩,
        model_name := "gpt-3.5-turbo",
        system_fingerprint := "fp_c2295e73ad",
        finish_reason := "stop" },
    id := "run-39d9e1e8-7766-4970-b1d8-f50213fd94c5-0" }

/-- Second SQLite-cached invocation result: same content and run id, no
response metadata, exactly as the notebook records it. -/
def sqliteSecondInvoke : AIMessage :=
  { content := "Why did the scarecrow win an award? Because he was outstanding in his field!",
    response_metadata := none,
    id := "run-39d9e1e8-7766-4970-b1d8-f50213fd94c5-0" }

/-- The cache entry written by the first SQLite-cached invocation. -/
def sqliteEntry : CacheEntry := ⟨[sqliteFirstInvoke], 0⟩

/-- The cache entry written by the first in-memory-cached invocation. -/
def inMemoryEntry : CacheEntry := ⟨[inMemoryFirstInvoke], 0⟩

/-- Non-fatal conditions signaled by the retrieval orchestration layer
(spec section 7: `LimitDisabled` is informational, logged, not an
error). -/
inductive RetrieverCondition where
  | LimitDisabled
deriving DecidableEq

/-- Modelled from the spec: the caller-side limits feature flag of spec
section 4.1 (the notebook constructor flag `enable_limit`) — the retriever
constructor is not part of the source. With the flag enabled the
translator-produced limit passes through unmodified; with the flag disabled
any produced limit is dropped and a non-fatal `LimitDisabled` condition is
signaled instead of an error. -/
def applyLimitFlag (enableLimit : Bool) (r : TranslateResult) :
    TranslateResult × List RetrieverCondition :=
  if enableLimit then (r, [])
  else
    match r.limit with
    | none => (r, [])
    | some _ => (⟨r.filterExpression, r.residualQuery, none⟩, [.LimitDisabled])

/-! ## Helper lemmas -/

mutual
/-- Re-parsing a rendered well-formed tree recovers the tree. -/
theorem parseBack_render (f : FilterNode) (h : wfN f = true) :
    parseBack (render f) = f := by
  cases f with
  | comparison c a v =>
    cases c <;> cases v <;> rfl
  | operation op args =>
    cases op with
    | and =>
      have hl : wfL args = true := by
        simp [wfN] at h
        exact h.2
      simp [render, parseBack, parseBackL_renderL args hl]
    | or =>
      have hl : wfL args = true := by
        simp [wfN] at h
        exact h.2
      simp [render, parseBack, parseBackL_renderL args hl]
    | not =>
      have h1 : lengthL args = 1 := by
        simp [wfN] at h
        exact h.1
      have hl : wfL args = true := by
        simp [wfN] at h
        exact h.2
      cases args with
      | nil => simp [lengthL] at h1
      | cons x t =>
        cases t with
        | nil =>
          have hx : wfN x = true := by
            simp [wfL] at hl
            exact hl
          simp [render, parseBack, parseBack_render x hx]
        | cons y u => simp [lengthL] at h1
/-- Re-parsing a rendered well-formed argument list recovers the list. -/
theorem parseBackL_renderL (l : FilterNodeList) (h : wfL l = true) :
    parseBackL (renderL l) = l := by
  cases l with
  | nil => rfl
  | cons x t =>
    have hx : wfN x = true := by
      simp [wfL] at h
      exact h.1
    have ht : wfL t = true := by
      simp [wfL] at h
      exact h.2
    simp [renderL, parseBackL, parseBack_render x hx, parseBackL_renderL t ht]
end

mutual
/-- The attribute validation phase checks exactly the referenced
attributes. -/
theorem attributesKnownN_eq_all (f : FilterNode) (schema : List AttributeInfo) :
    attributesKnownN f schema = (refAttrsN f).all (attributeDeclared schema) := by
  cases f with
  | comparison c a v => simp [attributesKnownN, refAttrsN]
  | operation op args =>
    simp [attributesKnownN, refAttrsN, attributesKnownL_eq_all args schema]
/-- Argument-list version of `attributesKnownN_eq_all`. -/
theorem attributesKnownL_eq_all (l : FilterNodeList) (schema : List AttributeInfo) :
    attributesKnownL l schema = (refAttrsL l).all (attributeDeclared schema) := by
  cases l with
  | nil => rfl
  | cons h t =>
    simp [attributesKnownL, refAttrsL, List.all_append,
      attributesKnownN_eq_all h schema, attributesKnownL_eq_all t schema]
end

/-- A successful translation passes the free-text query and the limit
through unmodified. -/
theorem translate_ok_components (q : StructuredQuery) (schema : List AttributeInfo)
    (r : TranslateResult) (h : SelfQuery.translate q schema = .ok r) :
    r.residualQuery = q.query ∧ r.limit = q.limit := by
  cases hf : q.filter with
  | none =>
    simp [SelfQuery.translate, hf] at h
    cases h
    exact ⟨rfl, rfl⟩
  | some f =>
    by_cases h1 : attributesKnownN f schema = true
    · by_cases h2 : comparatorsCompatibleN f schema = true
      · simp [SelfQuery.translate, hf, h1, h2] at h
        cases h
        exact ⟨rfl, rfl⟩
      · simp [SelfQuery.translate, hf, h1, h2] at h
    · simp [SelfQuery.translate, hf, h1] at h

/-! ## Claim theorems -/

/-- C5: the translator input
`Operation(and, [Comparison(gte, rating, 8.5), Comparison(contains, genre,
science fiction)])`, against a schema declaring `rating : float` and
`genre : list[string]`, renders a two-clause AND filter expression and
raises no validation error. -/
theorem c5_scenario_two_clause_and :
    SelfQuery.translate scenarioQuery scenarioSchema =
      .ok ⟨some (.andExpr (.cons (.numClause "rating" .gte ⟨85, 1⟩)
        (.cons (.tagClause "genre" "science fiction") .nil))), " ", none⟩ := rfl

/-- C4: a filter tree referencing at least one attribute absent from the
caller-supplied schema makes `translate` fail with the typed error
`UnknownAttribute`; the failure is the returned value of the single pure
translation pass, surfaced to the caller with no internal retry. -/
theorem c4_unknown_attribute (q : StructuredQuery) (schema : List AttributeInfo)
    (f : FilterNode) (hf : q.filter = some f)
    (h : ∃ a ∈ refAttrsN f, attributeDeclared schema a = false) :
    SelfQuery.translate q schema = .error .UnknownAttribute := by
  have hall : attributesKnownN f schema = false := by
    rw [attributesKnownN_eq_all]
    rw [List.all_eq_false]
    obtain ⟨a, ha, hdecl⟩ := h
    exact ⟨a, ha, by simp [hdecl]⟩
  simp [SelfQuery.translate, hf, hall]

/-- Witness for C4 at a concrete input: a filter on the undeclared
attribute `length` against the notebook schema. -/
theorem c4_unknown_attribute_witness :
    SelfQuery.translate ⟨" ", some (.comparison .lt "length" (.num ⟨90, 0⟩)), none⟩
      metadataFieldInfo = .error .UnknownAttribute := by
  exact c4_unknown_attribute _ metadataFieldInfo
    (.comparison .lt "length" (.num ⟨90, 0⟩)) rfl (by decide)

/-- C2: for every structured query whose filter tree is well formed,
references only schema-declared attributes and uses only type-compatible
comparators, `translate` succeeds, and the produced filter expression
re-parses to the same logical Comparison/Operation tree. -/
theorem c2_translate_roundtrip (q : StructuredQuery) (schema : List AttributeInfo)
    (f : FilterNode) (hf : q.filter = some f) (hwf : wfN f = true)
    (hattr : attributesKnownN f schema = true)
    (hcomp : comparatorsCompatibleN f schema = true) :
    SelfQuery.translate q schema = .ok ⟨some (render f), q.query, q.limit⟩ ∧
    parseBack (render f) = f := by
  constructor
  · simp [SelfQuery.translate, hf, hattr, hcomp]
  · exact parseBack_render f hwf

/-- Witness for C2 at the notebook composite filter against the notebook
schema. -/
theorem c2_translate_roundtrip_witness :
    SelfQuery.translate scenarioQuery metadataFieldInfo =
      .ok ⟨some (render scenarioFilter), " ", none⟩ ∧
    parseBack (render scenarioFilter) = scenarioFilter := by
  exact c2_translate_roundtrip scenarioQuery metadataFieldInfo scenarioFilter rfl
    (by decide) (by decide) (by decide)

/-- C1 counterexample: on the durable backend, `store` followed immediately
by `lookup` with the same key does not return the stored entry unchanged —
at the concrete notebook entry the returned responses have lost their
response metadata. -/
theorem c1_counterexample :
    (durableStore ⟨true, []⟩ jokeKey sqliteEntry).map
        (fun d => durableLookup d jokeKey) =
      .ok (.ok (some (stripEntry sqliteEntry))) ∧
    stripEntry sqliteEntry ≠ sqliteEntry := by
  refine ⟨rfl, ?_⟩
  decide

/-- C1 amended: `store` followed immediately by `lookup` with the same key
returns the stored entry unchanged on the volatile backend; on the durable
backend it returns the entry with every response's content and run id (and
the creation timestamp) preserved but with response metadata omitted. -/
theorem c1_store_lookup_roundtrip :
    (∀ (c : VolatileCache) (k : CacheKey) (e : CacheEntry),
      volatileLookup (volatileStore c k e) k = some e) ∧
    (∀ (d : DurableCache) (k : CacheKey) (e : CacheEntry),
      d.available = true →
      ∃ d2, durableStore d k e = .ok d2 ∧
        durableLookup d2 k = .ok (some (stripEntry e)) ∧
        (stripEntry e).responses.map AIMessage.content
          = e.responses.map AIMessage.content ∧
        (stripEntry e).responses.map AIMessage.id = e.responses.map AIMessage.id ∧
        (stripEntry e).created = e.created) := by
  constructor
  · intro c k e
    simp [volatileStore, volatileLookup, List.find?_cons]
  · intro d k e h
    refine ⟨⟨d.available, (k, stripEntry e) :: d.data.filter (fun p => ! decide (p.1 = k))⟩,
      ?_, ?_, ?_, ?_, rfl⟩
    · simp [durableStore, h]
    · simp [durableLookup, h, List.find?_cons]
    · simp [stripEntry, stripMeta]
    · simp [stripEntry, stripMeta]

/-- Witness for C1 amended at the concrete notebook entries. -/
theorem c1_store_lookup_roundtrip_witness :
    volatileLookup (volatileStore [] jokeKey inMemoryEntry) jokeKey
      = some inMemoryEntry ∧
    (∃ d2, durableStore ⟨true, []⟩ jokeKey sqliteEntry = .ok d2 ∧
      durableLookup d2 jokeKey = .ok (some (stripEntry sqliteEntry)) ∧
      (stripEntry sqliteEntry).responses.map AIMessage.content
        = sqliteEntry.responses.map AIMessage.content ∧
      (stripEntry sqliteEntry).responses.map AIMessage.id
        = sqliteEntry.responses.map AIMessage.id ∧
      (stripEntry sqliteEntry).created = sqliteEntry.created) :=
  ⟨c1_store_lookup_roundtrip.1 [] jokeKey inMemoryEntry,
   c1_store_lookup_roundtrip.2 ⟨true, []⟩ jokeKey sqliteEntry rfl⟩

/-- C10: on the durable (SQLite) cache hit the notebook records, the
returned response keeps the content and run identifier of the originally
generated response but omits its response metadata, and this is exactly the
durable round trip of the model; the volatile (in-memory) cache hit returns
the original response with every field intact. -/
theorem c10_durable_hit_omits_metadata :
    inMemorySecondInvoke = inMemoryFirstInvoke ∧
    sqliteSecondInvoke.content = sqliteFirstInvoke.content ∧
    sqliteSecondInvoke.id = sqliteFirstInvoke.id ∧
    sqliteSecondInvoke.response_metadata = none ∧
    sqliteFirstInvoke.response_metadata ≠ none ∧
    sqliteSecondInvoke = stripMeta sqliteFirstInvoke ∧
    (durableStore ⟨true, []⟩ jokeKey sqliteEntry).map
        (fun d => durableLookup d jokeKey)
      = .ok (.ok (some ⟨[sqliteSecondInvoke], 0⟩)) ∧
    volatileLookup (volatileStore [] jokeKey inMemoryEntry) jokeKey
      = some ⟨[inMemoryFirstInvoke], 0⟩ := by
  refine ⟨rfl, rfl, rfl, rfl, ?_, rfl, rfl, rfl⟩
  decide

/-- C3: fingerprints of two request payloads are equal exactly when the
payload content (prompt text, model identifier, multiset of generation
parameters, irrespective of parameter ordering) is identical; in
particular any single differing parameter yields a different
fingerprint. -/
theorem c3_fingerprint_content :
    ∀ p q : RequestPayload,
      fingerprint p = fingerprint q ↔
        (p.prompt = q.prompt ∧ p.model = q.model ∧ p.params.Perm q.params) := by
  intro p q
  simp [fingerprint, CacheKey.mk.injEq, Multiset.coe_eq_coe]

/-- Witness for C3: reordering the parameter fields keeps the fingerprint;
changing the temperature parameter changes it. -/
theorem c3_fingerprint_content_witness :
    fingerprint ⟨"Tell me a joke", "gpt-3.5-turbo",
        [("temperature", "0.7"), ("stop", "END")]⟩ =
      fingerprint ⟨"Tell me a joke", "gpt-3.5-turbo",
        [("stop", "END"), ("temperature", "0.7")]⟩ ∧
    fingerprint ⟨"Tell me a joke", "gpt-3.5-turbo",
        [("temperature", "0.7"), ("stop", "END")]⟩ ≠
      fingerprint ⟨"Tell me a joke", "gpt-3.5-turbo",
        [("temperature", "0.2"), ("stop", "END")]⟩ := by
  constructor
  · exact (c3_fingerprint_content _ _).mpr ⟨rfl, rfl, by decide⟩
  · intro h
    exact absurd ((c3_fingerprint_content _ _).mp h).2.2 (by decide)

/-- C6: when the durable backend's underlying file/connection cannot be
opened, `lookup` and `store` fail with `StorageUnavailable`; the calling
pipeline treats the result exactly as a cache miss — it returns the freshly
generated entry, the same entry a genuine miss returns — reports the
failure as an observability event, and never aborts the request. -/
theorem c6_storage_unavailable_graceful (d : DurableCache) (k : CacheKey)
    (g : CacheEntry) (h : d.available = false) :
    durableLookup d k = .error .StorageUnavailable ∧
    durableStore d k g = .error .StorageUnavailable ∧
    cachedInvoke d k g = (g, d, [.storageUnavailable]) ∧
    (cachedInvoke d k g).1 = (cachedInvoke ⟨true, []⟩ k g).1 := by
  refine ⟨?_, ?_, ?_, ?_⟩ <;>
    simp [durableLookup, durableStore, cachedInvoke, h]

/-- Witness for C6 at a concrete unavailable store. -/
theorem c6_storage_unavailable_graceful_witness :
    durableLookup ⟨false, []⟩ jokeKey = .error .StorageUnavailable ∧
    durableStore ⟨false, []⟩ jokeKey sqliteEntry = .error .StorageUnavailable ∧
    cachedInvoke ⟨false, []⟩ jokeKey sqliteEntry
      = (sqliteEntry, ⟨false, []⟩, [.storageUnavailable]) ∧
    (cachedInvoke ⟨false, []⟩ jokeKey sqliteEntry).1
      = (cachedInvoke ⟨true, []⟩ jokeKey sqliteEntry).1 :=
  c6_storage_unavailable_graceful ⟨false, []⟩ jokeKey sqliteEntry rfl

/-- C7: a successful translation passes the limit through unmodified; with
the limits feature flag enabled the limit survives unchanged, with the flag
disabled a produced limit is dropped and the non-fatal `LimitDisabled`
condition is signaled instead of an error, and no condition is signaled
when there was no limit to drop. -/
theorem c7_limit_flag (q : StructuredQuery) (schema : List AttributeInfo)
    (r : TranslateResult) (h : SelfQuery.translate q schema = .ok r) :
    r.limit = q.limit ∧
    applyLimitFlag true r = (r, []) ∧
    (∀ n, r.limit = some n →
      (applyLimitFlag false r).1.limit = none ∧
      (applyLimitFlag false r).2 = [.LimitDisabled]) ∧
    (r.limit = none → applyLimitFlag false r = (r, [])) := by
  refine ⟨(translate_ok_components q schema r h).2, by simp [applyLimitFlag], ?_, ?_⟩
  · intro n hn
    simp [applyLimitFlag, hn]
  · intro hn
    simp [applyLimitFlag, hn]

/-- Witness for C7 at the notebook limit-two query
(`query='dinosaur' filter=None limit=2`). -/
theorem c7_limit_flag_witness :
    (⟨none, "dinosaur", some 2⟩ : TranslateResult).limit
        = (⟨"dinosaur", none, some 2⟩ : StructuredQuery).limit ∧
    applyLimitFlag true ⟨none, "dinosaur", some 2⟩
      = (⟨none, "dinosaur", some 2⟩, []) ∧
    (∀ n, (⟨none, "dinosaur", some 2⟩ : TranslateResult).limit = some n →
      (applyLimitFlag false ⟨none, "dinosaur", some 2⟩).1.limit = none ∧
      (applyLimitFlag false ⟨none, "dinosaur", some 2⟩).2 = [.LimitDisabled]) ∧
    ((⟨none, "dinosaur", some 2⟩ : TranslateResult).limit = none →
      applyLimitFlag false ⟨none, "dinosaur", some 2⟩
        = (⟨none, "dinosaur", some 2⟩, [])) :=
  c7_limit_flag ⟨"dinosaur", none, some 2⟩ metadataFieldInfo
    ⟨none, "dinosaur", some 2⟩ rfl

/-- C8: a second `store` for a key already present is a no-op when the
content is identical — the cache state is unchanged — and silently replaces
the old value when the content differs (last-writer-wins), raising no
error, on both backends. -/
theorem c8_second_store :
    (∀ (c : VolatileCache) (k : CacheKey) (e e2 : CacheEntry),
      volatileStore (volatileStore c k e) k e = volatileStore c k e ∧
      volatileStore (volatileStore c k e) k e2 = volatileStore c k e2) ∧
    (∀ (d d2 : DurableCache) (k : CacheKey) (e e2 : CacheEntry),
      durableStore d k e = .ok d2 →
      durableStore d2 k e = .ok d2 ∧
      durableStore d2 k e2 = durableStore d k e2 ∧
      ∃ d3, durableStore d2 k e2 = .ok d3) := by
  constructor
  · intro c k e e2
    constructor <;>
      simp [volatileStore, List.filter_cons, List.filter_filter]
  · intro d d2 k e e2 h
    have ha : d.available = true := by
      cases hb : d.available
      · simp [durableStore, hb] at h
      · rfl
    simp [durableStore, ha] at h
    subst h
    refine ⟨?_, ?_, ?_⟩
    · simp [durableStore, List.filter_cons, List.filter_filter]
    · simp [durableStore, ha, List.filter_cons, List.filter_filter]
    · exact ⟨_, rfl⟩

/-- Witness for C8 at the concrete notebook entries. -/
theorem c8_second_store_witness :
    (volatileStore (volatileStore [] jokeKey inMemoryEntry) jokeKey inMemoryEntry
        = volatileStore [] jokeKey inMemoryEntry ∧
      volatileStore (volatileStore [] jokeKey inMemoryEntry) jokeKey sqliteEntry
        = volatileStore [] jokeKey sqliteEntry) ∧
    (durableStore ⟨true, [(jokeKey, stripEntry sqliteEntry)]⟩ jokeKey sqliteEntry
        = .ok ⟨true, [(jokeKey, stripEntry sqliteEntry)]⟩ ∧
      durableStore ⟨true, [(jokeKey, stripEntry sqliteEntry)]⟩ jokeKey inMemoryEntry
        = durableStore ⟨true, []⟩ jokeKey inMemoryEntry ∧
      ∃ d3, durableStore ⟨true, [(jokeKey, stripEntry sqliteEntry)]⟩ jokeKey inMemoryEntry
        = .ok d3) :=
  ⟨c8_second_store.1 [] jokeKey inMemoryEntry sqliteEntry,
   c8_second_store.2 ⟨true, []⟩ ⟨true, [(jokeKey, stripEntry sqliteEntry)]⟩
     jokeKey sqliteEntry inMemoryEntry rfl⟩

/-- C9: a rendered comparison over a numerically typed attribute evaluates
under numeric ordering of the parsed stored value — even though the backend
stores the values as strings — as witnessed on the notebook documents; at
`10.0` versus `9.0` the numeric and the lexicographic string orderings
disagree, and evaluation follows the numeric one. -/
theorem c9_numeric_not_string_ordering :
    (∀ (field : String) (c : Comparator) (v : Decimal)
        (doc : List (String × String)) (s : String) (d : Decimal),
      docLookup doc field = some s → parseDecimal s = some d →
      evalExpr (.numClause field c v) doc = decimalCompare c d v) ∧
    movieDocs.filter
        (fun doc => evalExpr (render (.comparison .gt "rating" (.num ⟨84, 1⟩))) doc)
      = [docPaprika, docToyStory, docStalker] ∧
    evalExpr (render (.comparison .gt "rating" (.num ⟨90, 1⟩))) [("rating", "10.0")]
      = true ∧
    charListLt "10.0".data "9.0".data = true := by
  refine ⟨?_, by decide, by decide, by decide⟩
  intro field c v doc s d h1 h2
  simp [evalExpr, h1, h2]

/-- Witness for C9 at the Satoshi Kon document (stored rating string
`8.6`). -/
theorem c9_numeric_not_string_ordering_witness :
    evalExpr (.numClause "rating" .gt ⟨84, 1⟩) docPaprika
      = decimalCompare .gt ⟨86, 1⟩ ⟨84, 1⟩ :=
  c9_numeric_not_string_ordering.1 "rating" .gt ⟨84, 1⟩ docPaprika "8.6" ⟨86, 1⟩
    (by decide) (by decide)
